import Mathlib

/-!
Verification development for the ATS-discrimination experiment pipeline
(`experiment_runner.py`, `analyzer.py`).

Conventions of the embedding:
* Python strings are `List Char`; `str.strip`, `str.find`, slicing with a
  possibly negative stop index, and substring membership are modelled below.
* `json.loads` is modelled by a fuel-bounded recursive-descent parser for the
  JSON fragment actually exercised here (objects, arrays, strings without
  escape sequences, integer and decimal numbers without exponents, booleans,
  null).  Numbers are exact rationals (`ℚ`), standing in for Python ints and
  floats.  Parse failures carry a representative message string standing in
  for `str(JSONDecodeError)`.
* The nondeterministic timestamp `datetime.now().isoformat()` is modelled by
  the constant `""`; no analysed property depends on it.
* The external `ollama.chat` call is modelled by its result: either a raised
  exception (as its string form) or the returned message content.
-/

/-! ### Python string primitives -/

/-- Whitespace characters removed by Python `str.strip()` (ASCII range). -/
def isPySpace (c : Char) : Bool :=
  c = ' ' || c = '\t' || c = '\n' || c = '\r' || c = '\x0b' || c = '\x0c'

/-- Python `str.strip()`. -/
def pyStrip (cs : List Char) : List Char :=
  ((cs.dropWhile isPySpace).reverse.dropWhile isPySpace).reverse

/-- Whether `needle` occurs at the head of `hay`. -/
def leadsWith : List Char → List Char → Bool
  | [], _ => true
  | _ :: _, [] => false
  | n :: ns, h :: hs => n = h && leadsWith ns hs

/-- Index of the first occurrence of `needle` in `hay`, if any. -/
def findSub (needle : List Char) : List Char → Option Nat
  | [] => if needle.isEmpty then some 0 else none
  | c :: rest =>
    if leadsWith needle (c :: rest) then some 0
    else (findSub needle rest).map (· + 1)

/-- Python `needle in hay` (substring membership). -/
def containsSub (hay needle : List Char) : Bool :=
  (findSub needle hay).isSome

/-- Python `hay.find(needle, start)`: first index `≥ start`, or `-1`. -/
def pyFindFrom (hay needle : List Char) (start : Nat) : Int :=
  match findSub needle (hay.drop start) with
  | some i => (start + i : Nat)
  | none => -1

/-- Python slice `cs[a:b]` with nonnegative start `a` and a stop index `b`
that may be negative (counting from the end), as in `text[json_start:-1]`. -/
def pySlice (cs : List Char) (a : Nat) (b : Int) : List Char :=
  let n := cs.length
  let stop : Nat := if b < 0 then ((n : Int) + b).toNat else min b.toNat n
  (cs.take stop).drop a

/-! ### JSON values and a model of `json.loads` -/

/-- JSON values as produced by `json.loads`; numbers are exact rationals. -/
inductive JVal where
  | jnum (q : ℚ)
  | jstr (s : String)
  | jbool (b : Bool)
  | jnull
  | jarr (elems : List JVal)
  | jobj (fields : List (String × JVal))

/-- JSON structural whitespace. -/
def isJsonWs (c : Char) : Bool :=
  c = ' ' || c = '\t' || c = '\n' || c = '\r'

def skipWs (cs : List Char) : List Char := cs.dropWhile isJsonWs

/-- Scan a JSON string body up to the closing quote (escape sequences are
outside the modelled fragment and fail the parse). -/
def parseStrChars : List Char → Option (List Char × List Char)
  | [] => none
  | c :: rest =>
    if c = '"' then some ([], rest)
    else if c = '\\' then none
    else (parseStrChars rest).map (fun p => (c :: p.1, p.2))

def digitVal (c : Char) : Nat := c.toNat - 48

def digitsToNat (ds : List Char) : Nat :=
  ds.foldl (fun acc c => acc * 10 + digitVal c) 0

/-- Parse a JSON number: optional minus, integer part, optional fraction. -/
def parseNum (cs : List Char) : Option (ℚ × List Char) :=
  let p := match cs with
    | '-' :: r => (true, r)
    | _ => (false, cs)
  let neg := p.1
  let cs1 := p.2
  let ip := cs1.takeWhile Char.isDigit
  let cs2 := cs1.dropWhile Char.isDigit
  if ip.isEmpty then none
  else
    let intVal : ℚ := (digitsToNat ip : ℚ)
    match cs2 with
    | '.' :: cs3 =>
      let fp := cs3.takeWhile Char.isDigit
      let cs4 := cs3.dropWhile Char.isDigit
      if fp.isEmpty then none
      else
        let q : ℚ := intVal + (digitsToNat fp : ℚ) / ((10 : ℚ) ^ fp.length)
        some (if neg then -q else q, cs4)
    | _ => some (if neg then -intVal else intVal, cs2)

mutual

/-- Fuel-bounded JSON value parser; returns the value and the unconsumed
remainder. -/
def parseVal : Nat → List Char → Option (JVal × List Char)
  | 0, _ => none
  | f + 1, cs =>
    match skipWs cs with
    | '\x7b' :: rest =>
      match skipWs rest with
      | '\x7d' :: r2 => some (.jobj [], r2)
      | r2 => parseMembers f r2 []
    | '[' :: rest =>
      match skipWs rest with
      | ']' :: r2 => some (.jarr [], r2)
      | r2 => parseItems f r2 []
    | '"' :: rest => (parseStrChars rest).map (fun p => (.jstr (String.mk p.1), p.2))
    | 't' :: rest => if leadsWith "rue".data rest then some (.jbool true, rest.drop 3) else none
    | 'f' :: rest => if leadsWith "alse".data rest then some (.jbool false, rest.drop 4) else none
    | 'n' :: rest => if leadsWith "ull".data rest then some (.jnull, rest.drop 3) else none
    | cs' => (parseNum cs').map (fun p => (.jnum p.1, p.2))

/-- Parse the members of a JSON object after the opening brace. -/
def parseMembers : Nat → List Char → List (String × JVal) → Option (JVal × List Char)
  | 0, _, _ => none
  | f + 1, cs, acc =>
    match skipWs cs with
    | '"' :: rest =>
      match parseStrChars rest with
      | none => none
      | some (key, r2) =>
        match skipWs r2 with
        | ':' :: r3 =>
          match parseVal f r3 with
          | none => none
          | some (v, r4) =>
            match skipWs r4 with
            | ',' :: r5 => parseMembers f r5 (acc ++ [(String.mk key, v)])
            | '\x7d' :: r5 => some (.jobj (acc ++ [(String.mk key, v)]), r5)
            | _ => none
        | _ => none
    | _ => none

/-- Parse the items of a JSON array after the opening bracket. -/
def parseItems : Nat → List Char → List JVal → Option (JVal × List Char)
  | 0, _, _ => none
  | f + 1, cs, acc =>
    match parseVal f cs with
    | none => none
    | some (v, r) =>
      match skipWs r with
      | ',' :: r2 => parseItems f r2 (acc ++ [v])
      | ']' :: r2 => some (.jarr (acc ++ [v]), r2)
      | _ => none

end

/-- Model of `json.loads`: the whole input must be one JSON document (plus
surrounding whitespace).  The error strings stand in for
`str(json.JSONDecodeError)`. -/
def json_loads (cs : List Char) : Except String JVal :=
  match parseVal (cs.length + 1) cs with
  | some (v, rest) => if (skipWs rest).isEmpty then .ok v else .error "Extra data"
  | none => .error "Expecting value"

/-! ### Experiment runner (`experiment_runner.py`) -/

/-- Profile information consumed by the runner (the keys `id` and
`description` of the profile dictionaries; `name` is only printed). -/
structure ProfileInfo where
  id : String
  description : String
deriving DecidableEq

/-- One evaluation result dictionary as built by
`run_single_evaluation_async`.  Keys absent from a branch of the source are
modelled as `none` (`scores` and `raw_response` are only set on success,
`error` only on failure). -/
structure Outcome where
  success : Bool
  scores : Option JVal
  error : Option String
  profile_id : String
  profile_description : String
  timestamp : String
  iteration : Nat
  raw_response : Option (List Char)

/-- Fence scanning of `run_single_evaluation_async` (lines 124-135): locate a
```` ```json ```` fence, else any ```` ``` ```` fence, else take the whole
(stripped) text; the stop index comes from `str.find` and is `-1` when no
closing fence exists, which the slice then interprets from the end. -/
def extract_json_text (response_text : List Char) : List Char :=
  if containsSub response_text "```json".data then
    let json_start := (pyFindFrom response_text "```json".data 0 + 7).toNat
    let json_end := pyFindFrom response_text "```".data json_start
    pyStrip (pySlice response_text json_start json_end)
  else if containsSub response_text "```".data then
    let json_start := (pyFindFrom response_text "```".data 0 + 3).toNat
    let json_end := pyFindFrom response_text "```".data json_start
    pyStrip (pySlice response_text json_start json_end)
  else response_text

/-- Model of `ATSExperiment.run_single_evaluation_async`.  The external call
is abstracted by its result: `.error e` models `ollama.chat` raising an
exception whose string form is `e`; `.ok content` models a successful call
returning `content` as the message text.  The whole body runs inside a
`try`/`except Exception` that converts any exception into a failure
dictionary. -/
def run_single_evaluation_async (serviceResult : Except String String)
    (profile_info : ProfileInfo) (iteration : Nat) : Outcome :=
  match serviceResult with
  | .ok content =>
    let response_text := pyStrip content.data
    let json_text := extract_json_text response_text
    match json_loads json_text with
    | .ok scores =>
      { success := true, scores := some scores, error := none,
        profile_id := profile_info.id,
        profile_description := profile_info.description,
        timestamp := "", iteration := iteration,
        raw_response := some response_text }
    | .error e =>
      { success := false, scores := none, error := some e,
        profile_id := profile_info.id,
        profile_description := profile_info.description,
        timestamp := "", iteration := iteration,
        raw_response := none }
  | .error e =>
    { success := false, scores := none, error := some e,
      profile_id := profile_info.id,
      profile_description := profile_info.description,
      timestamp := "", iteration := iteration,
      raw_response := none }

/-- Configuration fields of the `ATSExperiment` class. -/
structure ATSExperiment where
  model_name : String
  iterations_per_config : Nat
  max_concurrent : Nat
  temperature : ℚ

/-- Model of `run_profile_experiment_async`: one task per iteration
`0..N-1`, each calling `run_single_evaluation_async` with iteration number
`i+1`; `asyncio.gather` returns results in task order, independent of
completion order.  The per-call service results are abstracted as the
function `call`. -/
def ATSExperiment.run_profile_experiment_async (e : ATSExperiment)
    (call : Nat → Except String String) (profile : ProfileInfo) : List Outcome :=
  (List.range e.iterations_per_config).map
    (fun i => run_single_evaluation_async (call i) profile (i + 1))

/-- Metadata dictionary of `run_all_experiments_async` (wall-clock fields
omitted; no analysed property depends on them). -/
structure ExperimentMetadata where
  model_name : String
  iterations_per_config : Nat
  max_concurrent : Nat
  total_profiles : Nat
  total_evaluations : Nat

/-- The experiment-data dictionary returned by `run_all_experiments_async`. -/
structure ExperimentData where
  metadata : ExperimentMetadata
  results : List Outcome

/-- Model of `run_all_experiments_async`: profiles run sequentially, each
profile's outcomes concatenated in order; `total_evaluations` is
`len(all_results)` as in the source. -/
def ATSExperiment.run_all_experiments_async (e : ATSExperiment)
    (call : ProfileInfo → Nat → Except String String)
    (profiles : List ProfileInfo) : ExperimentData :=
  let all_results := profiles.flatMap
    (fun p => e.run_profile_experiment_async (call p) p)
  { metadata :=
      { model_name := e.model_name,
        iterations_per_config := e.iterations_per_config,
        max_concurrent := e.max_concurrent,
        total_profiles := profiles.length,
        total_evaluations := all_results.length },
    results := all_results }

/-! ### Analyzer (`analyzer.py`) -/

/-- First-occurrence order of keys, as produced by accessing a Python
`defaultdict` once per record while iterating the records in order. -/
def dedupFirst (l : List String) : List String :=
  l.foldl (fun acc x => if x ∈ acc then acc else acc ++ [x]) []

/-- The `result.get("scores", {}).items()` view of an outcome: the field
list of the scores object, `[]` when the key is absent.  (`ScoreRecord`s in
the persisted artifact are mappings; non-mapping `scores` values are outside
the data model.) -/
def scoresItems (r : Outcome) : List (String × JVal) :=
  match r.scores with
  | some (.jobj fs) => fs
  | _ => []

/-- Score entries passing `isinstance(score_value, (int, float))`.  Python
booleans are `int` instances, so JSON `true`/`false` pass as `1`/`0`. -/
def numericScores (r : Outcome) : List (String × ℚ) :=
  (scoresItems r).filterMap (fun kv =>
    match kv.2 with
    | .jnum q => some (kv.1, q)
    | .jbool b => some (kv.1, if b then 1 else 0)
    | _ => none)

/-- Python `statistics.mean` (exact rational arithmetic; only applied to
nonempty lists, matching the `if score_values:` guard in the source). -/
def listMean (l : List ℚ) : ℚ := l.sum / l.length

/-- Python `statistics.median`: middle of the sorted values, or the average
of the two middle values. -/
def listMedian (l : List ℚ) : ℚ :=
  let s := l.mergeSort (fun a b => decide (a ≤ b))
  let n := l.length
  if n % 2 = 1 then s.getD (n / 2) 0
  else (s.getD (n / 2 - 1) 0 + s.getD (n / 2) 0) / 2

/-- Python `min` over a nonempty list. -/
def listMin (l : List ℚ) : ℚ :=
  match l with
  | [] => 0
  | x :: xs => xs.foldl min x

/-- Python `max` over a nonempty list. -/
def listMax (l : List ℚ) : ℚ :=
  match l with
  | [] => 0
  | x :: xs => xs.foldl max x

/-- Unbiased sample variance (the square of `statistics.stdev`; the source
stores the square root, which is irrational in general, so the embedding
stores the variance — no analysed property mentions its value). -/
def sampleVar (l : List ℚ) : ℚ :=
  let m := listMean l
  (l.map (fun x => (x - m) ^ 2)).sum / ((l.length : ℚ) - 1)

/-- Per-field statistics dictionary of `aggregate_by_profile`
(`stdev_sq` is the square of the stored `stdev`, see `sampleVar`). -/
structure ScoreStats where
  mean : ℚ
  median : ℚ
  stdev_sq : ℚ
  min : ℚ
  max : ℚ
  values : List ℚ
deriving DecidableEq

/-- One aggregated entry of `aggregate_by_profile`.  `total_iterations` is
`len(data["iterations"])` where the source appends a result to
`data["iterations"]` only in the `success` branch. -/
structure ProfileStats where
  profile_id : String
  description : String
  total_iterations : Nat
  success_count : Nat
  error_count : Nat
  scores : List (String × ScoreStats)
deriving DecidableEq

/-- Statistics for one score field, as built when `score_values` is
nonempty: `stdev` is `0` when fewer than two values exist. -/
def mkScoreStats (values : List ℚ) : ScoreStats :=
  { mean := listMean values, median := listMedian values,
    stdev_sq := if values.length > 1 then sampleVar values else 0,
    min := listMin values, max := listMax values, values := values }

/-- The aggregate for one profile id over the full results list (the loop
body of `aggregate_by_profile` restricted to that id). -/
def profileStats (results : List Outcome) (pid : String) : ProfileStats :=
  let rs := results.filter (fun r => r.profile_id == pid)
  let succ := rs.filter (fun r => r.success)
  let errs := rs.filter (fun r => !r.success)
  let pairs := succ.flatMap numericScores
  let keys := dedupFirst (pairs.map Prod.fst)
  { profile_id := pid,
    description := rs.foldl (fun d r => if d == "" then r.profile_description else d) "",
    total_iterations := succ.length,
    success_count := succ.length,
    error_count := errs.length,
    scores := keys.map (fun k =>
      (k, mkScoreStats ((pairs.filter (fun kv => kv.1 == k)).map Prod.snd))) }

/-- Model of `ATSAnalyzer.aggregate_by_profile`: one `ProfileStats` per
profile id, in first-encounter order. -/
def aggregate_by_profile (results : List Outcome) : List ProfileStats :=
  (dedupFirst (results.map (fun r => r.profile_id))).map (profileStats results)

/-- One entry of the `profile_scores` dictionary in `detect_discrimination`. -/
structure ProfileScore where
  profile_id : String
  mean : ℚ
  description : String
deriving DecidableEq

/-- The `profile_scores` dictionary: profiles whose aggregate has a
`total_score` entry (such an entry is a nonempty dictionary, hence truthy). -/
def profile_scores_of (aggregated : List ProfileStats) : List ProfileScore :=
  aggregated.filterMap (fun p =>
    match List.lookup "total_score" p.scores with
    | some ts => some { profile_id := p.profile_id, mean := ts.mean,
                        description := p.description }
    | none => none)

/-- Python `max(..., key=mean)`: keeps the first element on ties. -/
def maxByMean (p : ProfileScore) (ps : List ProfileScore) : ProfileScore :=
  ps.foldl (fun best x => if x.mean > best.mean then x else best) p

/-- Python `min(..., key=mean)`: keeps the first element on ties. -/
def minByMean (p : ProfileScore) (ps : List ProfileScore) : ProfileScore :=
  ps.foldl (fun best x => if x.mean < best.mean then x else best) p

/-- The `i < j` pair-generation order of the nested loops
`for i, a in enumerate(ids): for b in ids[i+1:]`. -/
def pairsOf {α : Type} : List α → List (α × α)
  | [] => []
  | x :: xs => xs.map (fun y => (x, y)) ++ pairsOf xs

/-- Python `round` to the nearest integer, rounding halves to even. -/
def roundHalfEven (q : ℚ) : ℤ :=
  if q - ⌊q⌋ = 1 / 2 then (if ⌊q⌋ % 2 = 0 then ⌊q⌋ else ⌊q⌋ + 1)
  else round q

/-- Python `round(x, 2)` on exact rationals. -/
def pyRound2 (q : ℚ) : ℚ := (roundHalfEven (q * 100) : ℚ) / 100

/-- One comparison dictionary of `detect_discrimination`: the reported
`difference` is rounded to 2 decimals, while the flag compares the exact
difference against the threshold. -/
structure Comparison where
  profile_a : String
  profile_a_desc : String
  profile_a_score : ℚ
  profile_b : String
  profile_b_desc : String
  profile_b_score : ℚ
  difference : ℚ
  potential_discrimination : Bool
deriving DecidableEq

/-- Build the comparison dictionary for one generated pair. -/
def mkComparison (threshold : ℚ) (a b : ProfileScore) : Comparison :=
  let diff := |a.mean - b.mean|
  { profile_a := a.profile_id, profile_a_desc := a.description,
    profile_a_score := pyRound2 a.mean,
    profile_b := b.profile_id, profile_b_desc := b.description,
    profile_b_score := pyRound2 b.mean,
    difference := pyRound2 diff,
    potential_discrimination := decide (diff > threshold) }

/-- Comparator of `comparisons.sort(key=lambda x: x["difference"],
reverse=True)`: `x` may come before `y` when its reported difference is at
least as large; the sort is stable. -/
def comparisonLE (x y : Comparison) : Bool := decide (y.difference ≤ x.difference)

/-- The discrimination-analysis dictionary (success shape). -/
structure DiscriminationAnalysis where
  threshold : ℚ
  max_difference : ℚ
  highest_profile_id : String
  highest_description : String
  highest_mean_score : ℚ
  lowest_profile_id : String
  lowest_description : String
  lowest_mean_score : ℚ
  potential_discrimination_detected : Bool
  all_comparisons : List Comparison
  flagged_comparisons : List Comparison
deriving DecidableEq

/-- Model of `ATSAnalyzer.detect_discrimination`.  The source returns the
dictionary `{"error": "No valid scores to analyze"}` when no profile has a
usable `total_score`; this is the `.error` branch. -/
def detect_discrimination (results : List Outcome) (threshold : ℚ) :
    Except String DiscriminationAnalysis :=
  let aggregated := aggregate_by_profile results
  match profile_scores_of aggregated with
  | [] => .error "No valid scores to analyze"
  | p :: ps =>
    let max_profile := maxByMean p ps
    let min_profile := minByMean p ps
    let score_difference := max_profile.mean - min_profile.mean
    let comparisons :=
      (pairsOf (p :: ps)).map (fun ab => mkComparison threshold ab.1 ab.2)
    let sorted := comparisons.mergeSort comparisonLE
    .ok { threshold := threshold,
          max_difference := pyRound2 score_difference,
          highest_profile_id := max_profile.profile_id,
          highest_description := max_profile.description,
          highest_mean_score := pyRound2 max_profile.mean,
          lowest_profile_id := min_profile.profile_id,
          lowest_description := min_profile.description,
          lowest_mean_score := pyRound2 min_profile.mean,
          potential_discrimination_detected := decide (score_difference > threshold),
          all_comparisons := sorted,
          flagged_comparisons := sorted.filter (fun c => c.potential_discrimination) }

/-! ### Concurrency model of the bounded dispatch

`run_profile_experiment_async` creates `asyncio.Semaphore(max_concurrent)`
and one `bounded_evaluation` task per iteration; each task runs
`async with semaphore: ... await run_single_evaluation_async(...)`, so it
acquires one slot before invoking the evaluator and releases it when the
block exits — unconditionally, since `run_single_evaluation_async` returns
normally on success and failure alike.  The cooperative scheduling of these
tasks is modelled as a step relation on task states. -/

/-- Lifecycle of one `bounded_evaluation` task: not yet admitted, holding a
semaphore slot with its evaluation in flight, or completed (slot released). -/
inductive TaskPhase where
  | idle
  | running
  | done
deriving DecidableEq

/-- Scheduler state: the phase of each task and the semaphore counter. -/
structure DispatchState where
  tasks : List TaskPhase
  sem : Nat
deriving DecidableEq

/-- One cooperative scheduling step: either an idle task acquires a free
slot and starts its evaluation, or a running task finishes (success or
failure) and releases its slot. -/
inductive SemStep : DispatchState → DispatchState → Prop
  | acquire (l₁ l₂ : List TaskPhase) (s : Nat) :
      SemStep ⟨l₁ ++ .idle :: l₂, s + 1⟩ ⟨l₁ ++ .running :: l₂, s⟩
  | complete (l₁ l₂ : List TaskPhase) (s : Nat) :
      SemStep ⟨l₁ ++ .running :: l₂, s⟩ ⟨l₁ ++ .done :: l₂, s + 1⟩

/-- Initial state of a dispatch of `N` iterations under concurrency cap `C`. -/
def initDispatch (C N : Nat) : DispatchState :=
  ⟨List.replicate N .idle, C⟩

/-- States reachable during one profile's dispatch. -/
def DispatchReachable (C N : Nat) (s : DispatchState) : Prop :=
  Relation.ReflTransGen SemStep (initDispatch C N) s

/-- Number of evaluator invocations currently in flight. -/
def inFlight (s : DispatchState) : Nat := s.tasks.count .running

/-! ### Concrete artifact records used by the analyses -/

/-- A successful evaluation record carrying one `total_score` value, as
found in a persisted results file. -/
def okOut (pid desc : String) (ts : ℚ) (i : Nat) : Outcome :=
  { success := true, scores := some (.jobj [("total_score", .jnum ts)]),
    error := none, profile_id := pid, profile_description := desc,
    timestamp := "", iteration := i, raw_response := some [] }

/-- A failed evaluation record, as found in a persisted results file. -/
def errOut (pid desc : String) (i : Nat) : Outcome :=
  { success := false, scores := none, error := some "boom",
    profile_id := pid, profile_description := desc,
    timestamp := "", iteration := i, raw_response := none }

/-- Profile used when probing single evaluations. -/
def probeProfile : ProfileInfo := { id := "P1", description := "baseline" }

/-! ### C1 — the aggregation invariant -/

/-- Results for one subject with one success and one failure. -/
def c1_results : List Outcome := [okOut "A" "profile A" 80 1, errOut "A" "profile A" 2]

/-- C1: the claim `success_count + error_count = total_iterations` fails on
the code.  `aggregate_by_profile` appends a result to `data["iterations"]`
only in the success branch, so `total_iterations = len(data["iterations"])`
counts only successes: for one success and one failure it reports
`total_iterations = 1` while `success_count + error_count = 2`. -/
theorem aggregate_total_iterations_omits_failures :
    ((aggregate_by_profile c1_results).map
      (fun p => (p.total_iterations, p.success_count, p.error_count))) = [(1, 1, 1)]
    ∧ ∃ p ∈ aggregate_by_profile c1_results,
        p.success_count + p.error_count ≠ p.total_iterations := by
  constructor
  · decide
  · decide

/-! ### C2 — unbalanced fence extraction -/

/-- A raw response with an opening ```` ```json ```` fence and no closing
fence: the score payload followed by one stray character. -/
def c2_unbalanced : String := "```json\x7b\"total_score\": 80\x7dx"

/-- C2: the claim fails on the code.  On a response containing an opening
fence but no closing fence, `json_end = response_text.find("```", 7) = -1`
and the slice `response_text[7:-1]` silently drops the final character; for
`c2_unbalanced` the remaining text is exactly the score object, so
extraction succeeds instead of failing with a `ParseError`. -/
theorem unbalanced_fence_can_succeed :
    containsSub (pyStrip c2_unbalanced.data) "```json".data = true
    ∧ pyFindFrom (pyStrip c2_unbalanced.data) "```".data 7 = -1
    ∧ (run_single_evaluation_async (.ok c2_unbalanced) probeProfile 1).success = true
    ∧ (run_single_evaluation_async (.ok c2_unbalanced) probeProfile 1).scores
        = some (.jobj [("total_score", .jnum 80)])
    ∧ (run_single_evaluation_async (.ok c2_unbalanced) probeProfile 1).error = none := by
  exact ⟨rfl, rfl, rfl, rfl, rfl⟩

/-! ### C3 — raw response retention -/

/-- C3 counterexample: a call that succeeds at the service level but whose
free-text response fails score parsing yields a failure outcome with **no**
`raw_response` field — the `except` branch of `run_single_evaluation_async`
builds its dictionary without the raw text, so the claim that every outcome
carries the raw response is false. -/
theorem parse_failure_outcome_drops_raw_response :
    (run_single_evaluation_async (.ok "The score is 80") probeProfile 1).success = false
    ∧ (run_single_evaluation_async (.ok "The score is 80") probeProfile 1).raw_response = none
    ∧ (run_single_evaluation_async (.ok "The score is 80") probeProfile 1).error
        = some "Expecting value" := by
  exact ⟨rfl, rfl, rfl⟩

/-- C3 amended: only success outcomes carry the raw response text (the
stripped message content); every failure outcome — service error or parse
failure inside an otherwise-successful call — omits it. -/
theorem raw_response_iff_success (sr : Except String String)
    (prof : ProfileInfo) (i : Nat) :
    (∃ content, sr = .ok content
      ∧ (run_single_evaluation_async sr prof i).success = true
      ∧ (run_single_evaluation_async sr prof i).raw_response
          = some (pyStrip content.data))
    ∨ ((run_single_evaluation_async sr prof i).success = false
      ∧ (run_single_evaluation_async sr prof i).raw_response = none) := by
  cases sr with
  | error e => right; exact ⟨rfl, rfl⟩
  | ok content =>
    cases h : json_loads (extract_json_text (pyStrip content.data)) with
    | ok v =>
      left
      refine ⟨content, rfl, ?_, ?_⟩ <;>
        simp [run_single_evaluation_async, h]
    | error m =>
      right
      constructor <;> simp [run_single_evaluation_async, h]

/-! ### C4 — total error capture in the evaluator -/

/-- C4: the evaluator never propagates an exception past its boundary (the
embedding of `run_single_evaluation_async` is a total function into
outcomes); its `error` field is exactly the stringified underlying cause —
the service exception text, or the parse-error text when the call succeeded
but extraction failed — and an outcome is marked failed precisely when an
error was captured. -/
theorem evaluator_captures_all_failures (sr : Except String String)
    (prof : ProfileInfo) (i : Nat) :
    (run_single_evaluation_async sr prof i).error =
      (match sr with
       | .error e => some e
       | .ok c =>
         match json_loads (extract_json_text (pyStrip c.data)) with
         | .ok _ => none
         | .error m => some m)
    ∧ ((run_single_evaluation_async sr prof i).success = false
        ↔ (run_single_evaluation_async sr prof i).error ≠ none) := by
  cases sr with
  | error e => exact ⟨rfl, by simp [run_single_evaluation_async]⟩
  | ok content =>
    cases h : json_loads (extract_json_text (pyStrip content.data)) with
    | ok v => constructor <;> simp [run_single_evaluation_async, h]
    | error m => constructor <;> simp [run_single_evaluation_async, h]

/-! ### C5 — exactly N outcomes per subject, counted totals -/

/-- The iteration number recorded in an outcome is the one the task was
dispatched with, whatever the service call and parse did. -/
theorem run_single_iteration_eq (sr : Except String String)
    (prof : ProfileInfo) (i : Nat) :
    (run_single_evaluation_async sr prof i).iteration = i := by
  cases sr with
  | error e => rfl
  | ok content =>
    cases h : json_loads (extract_json_text (pyStrip content.data)) with
    | ok v => simp [run_single_evaluation_async, h]
    | error m => simp [run_single_evaluation_async, h]

/-- C5: a subject dispatched with iteration count `N` yields exactly `N`
outcomes whose iteration indices are `1..N` in order (results are collected
in task order, independent of completion order and of individual failures),
and the recorded `total_evaluations` equals the length of the outcome list,
which equals `number of profiles × iterations per profile` — the sum over
subjects of the configured iteration count. -/
theorem dispatch_counts_and_indexing (e : ATSExperiment)
    (call : Nat → Except String String) (prof : ProfileInfo)
    (callAll : ProfileInfo → Nat → Except String String)
    (profiles : List ProfileInfo) :
    ((e.run_profile_experiment_async call prof).map (fun o => o.iteration)
        = (List.range e.iterations_per_config).map (· + 1))
    ∧ (e.run_profile_experiment_async call prof).length = e.iterations_per_config
    ∧ (e.run_all_experiments_async callAll profiles).metadata.total_evaluations
        = (e.run_all_experiments_async callAll profiles).results.length
    ∧ (e.run_all_experiments_async callAll profiles).results.length
        = profiles.length * e.iterations_per_config := by
  refine ⟨?_, ?_, rfl, ?_⟩
  · simp [ATSExperiment.run_profile_experiment_async, run_single_iteration_eq]
  · simp [ATSExperiment.run_profile_experiment_async]
  · show (profiles.flatMap
      (fun p => e.run_profile_experiment_async (callAll p) p)).length = _
    induction profiles with
    | nil => simp
    | cons p ps ih =>
      have hp : (e.run_profile_experiment_async (callAll p) p).length
          = e.iterations_per_config := by
        simp [ATSExperiment.run_profile_experiment_async]
      simp only [List.flatMap_cons, List.length_append, ih, hp, List.length_cons]
      ring

/-! ### C9 — the semaphore bounds in-flight evaluations -/

/-- Each scheduling step conserves `in-flight + free slots`: admission
trades one free slot for one in-flight evaluation, and completion — on
success or failure alike — returns the slot. -/
theorem semStep_conserves (s s' : DispatchState) (h : SemStep s s') :
    inFlight s + s.sem = inFlight s' + s'.sem := by
  cases h with
  | acquire l₁ l₂ n => simp [inFlight, List.count_append]; ring
  | complete l₁ l₂ n => simp [inFlight, List.count_append]; ring

/-- C9: in every state reachable during a subject's dispatch under
concurrency cap `C`, the number of in-flight evaluator invocations plus the
free semaphore slots equals `C`; in particular no more than `C` evaluations
are ever in flight.  A task moves to in-flight only through the
slot-consuming `acquire` step, and every completion releases its slot
unconditionally. -/
theorem inFlight_le_max_concurrent (C N : Nat) (s : DispatchState)
    (h : DispatchReachable C N s) :
    inFlight s + s.sem = C ∧ inFlight s ≤ C := by
  have key : inFlight s + s.sem = C := by
    induction h with
    | refl => simp [initDispatch, inFlight, List.count_replicate]
    | tail _ step ih => rw [← semStep_conserves _ _ step]; exact ih
  exact ⟨key, by omega⟩

/-- A dispatch of 3 iterations under cap 2 where one task has been admitted
and is in flight. -/
def c9_state : DispatchState := ⟨[.running, .idle, .idle], 1⟩

/-- Witness for C9: the state with one running task is reachable from the
initial state of a cap-2, 3-task dispatch, and the bound holds there. -/
theorem inFlight_le_max_concurrent_witness :
    inFlight c9_state + c9_state.sem = 2 ∧ inFlight c9_state ≤ 2 := by
  have reach : DispatchReachable 2 3 c9_state :=
    Relation.ReflTransGen.single (SemStep.acquire [] [.idle, .idle] 1)
  exact inFlight_le_max_concurrent 2 3 c9_state reach

/-! ### C8 — insufficient-data failure of discrimination detection -/

/-- C8: `detect_discrimination` returns its explicit error value (the
`InsufficientDataError` of the design, surfaced to the caller as a result,
not a crash) exactly when no subject's aggregate carries a usable
`total_score` entry, and that is its only error; per-subject aggregation is
a total function evaluated the same way in both cases. -/
theorem insufficient_data_iff_no_usable_total_score
    (results : List Outcome) (threshold : ℚ) :
    (detect_discrimination results threshold = .error "No valid scores to analyze"
      ↔ profile_scores_of (aggregate_by_profile results) = [])
    ∧ (profile_scores_of (aggregate_by_profile results) = []
      ↔ ∀ p ∈ aggregate_by_profile results,
          List.lookup "total_score" p.scores = none)
    ∧ (∀ msg, detect_discrimination results threshold = .error msg
        → msg = "No valid scores to analyze") := by
  refine ⟨?_, ?_, ?_⟩
  · cases h : profile_scores_of (aggregate_by_profile results) with
    | nil => simp [detect_discrimination, h]
    | cons p ps => simp [detect_discrimination, h]
  · rw [profile_scores_of, List.filterMap_eq_nil_iff]
    constructor
    · intro h p hp
      have := h p hp
      cases hl : List.lookup "total_score" p.scores with
      | none => rfl
      | some ts => rw [hl] at this; exact absurd this (by simp)
    · intro h p hp
      rw [h p hp]
  · intro msg hmsg
    cases h : profile_scores_of (aggregate_by_profile results) with
    | nil =>
      have hd : detect_discrimination results threshold
          = .error "No valid scores to analyze" := by
        rw [detect_discrimination]; simp [h]
      rw [hd] at hmsg
      injection hmsg with h'
      exact h'.symm
    | cons p ps =>
      rw [detect_discrimination] at hmsg
      simp [h] at hmsg

/-- Witness for C8: on an empty results list no subject has a usable
`total_score`, and detection indeed reports the insufficient-data error. -/
theorem insufficient_data_witness :
    detect_discrimination ([] : List Outcome) 5 = .error "No valid scores to analyze" :=
  (insufficient_data_iff_no_usable_total_score [] 5).1.mpr rfl

/-! ### C6 — strict threshold comparison -/

/-- Usable per-subject mean total scores derived from a results list. -/
def usable_profile_scores (results : List Outcome) : List ProfileScore :=
  profile_scores_of (aggregate_by_profile results)

/-- Python `max(..., key=mean)` selects an element whose mean is the
maximum of the means. -/
theorem maxByMean_mean (p : ProfileScore) (ps : List ProfileScore) :
    (maxByMean p ps).mean = listMax ((p :: ps).map (fun x => x.mean)) := by
  show (maxByMean p ps).mean = (ps.map (fun x => x.mean)).foldl max p.mean
  induction ps generalizing p with
  | nil => rfl
  | cons x xs ih =>
    show (maxByMean (if x.mean > p.mean then x else p) xs).mean = _
    rw [ih]
    have : (if x.mean > p.mean then x else p).mean = max p.mean x.mean := by
      split
      · exact (max_eq_right (le_of_lt (by assumption))).symm
      · exact (max_eq_left (le_of_not_lt (by assumption))).symm
    rw [this]
    rfl

/-- Python `min(..., key=mean)` selects an element whose mean is the
minimum of the means. -/
theorem minByMean_mean (p : ProfileScore) (ps : List ProfileScore) :
    (minByMean p ps).mean = listMin ((p :: ps).map (fun x => x.mean)) := by
  show (minByMean p ps).mean = (ps.map (fun x => x.mean)).foldl min p.mean
  induction ps generalizing p with
  | nil => rfl
  | cons x xs ih =>
    show (minByMean (if x.mean < p.mean then x else p) xs).mean = _
    rw [ih]
    have : (if x.mean < p.mean then x else p).mean = min p.mean x.mean := by
      split
      · exact (min_eq_right (le_of_lt (by assumption))).symm
      · exact (min_eq_left (le_of_not_lt (by assumption))).symm
    rw [this]
    rfl

/-- C6: the discrimination flags are strict comparisons on exact values:
the global flag is set iff `max mean − min mean > threshold`, so a gap
exactly equal to the threshold is not flagged; and every reported pairwise
comparison is built from a generated pair and is flagged iff the exact
absolute difference of that pair's means strictly exceeds the threshold. -/
theorem discrimination_flag_is_strict (results : List Outcome) (threshold : ℚ)
    (a : DiscriminationAnalysis)
    (h : detect_discrimination results threshold = .ok a) :
    (a.potential_discrimination_detected = true
      ↔ listMax ((usable_profile_scores results).map (fun x => x.mean))
          - listMin ((usable_profile_scores results).map (fun x => x.mean))
          > threshold)
    ∧ (listMax ((usable_profile_scores results).map (fun x => x.mean))
          - listMin ((usable_profile_scores results).map (fun x => x.mean))
          = threshold
        → a.potential_discrimination_detected = false)
    ∧ (∀ c ∈ a.all_comparisons,
        ∃ pq ∈ pairsOf (usable_profile_scores results),
          c = mkComparison threshold pq.1 pq.2
          ∧ (c.potential_discrimination = true
              ↔ |pq.1.mean - pq.2.mean| > threshold)) := by
  rw [detect_discrimination] at h
  rw [usable_profile_scores]
  cases hps : profile_scores_of (aggregate_by_profile results) with
  | nil => rw [hps] at h; exact absurd h (by simp)
  | cons p ps =>
    rw [hps] at h
    simp only [Except.ok.injEq] at h
    subst h
    refine ⟨?_, ?_, ?_⟩
    · simp only [decide_eq_true_eq, maxByMean_mean, minByMean_mean]
    · intro hgap
      simp only [maxByMean_mean, minByMean_mean] at hgap ⊢
      rw [hgap]
      simp
    · intro c hc
      simp only [List.mem_mergeSort, List.mem_map] at hc
      obtain ⟨pq, hpq, hcq⟩ := hc
      refine ⟨pq, hpq, hcq.symm, ?_⟩
      subst hcq
      simp [mkComparison]

/-- Results giving mean 80 for subject A and mean 75 for subject B: a gap
of exactly the default threshold 5. -/
def c6_results : List Outcome := [okOut "A" "desc A" 80 1, okOut "B" "desc B" 75 1]

/-- Fallback analysis value (never used on the concrete inputs below). -/
def dummyAnalysis : DiscriminationAnalysis :=
  { threshold := 0, max_difference := 0, highest_profile_id := "",
    highest_description := "", highest_mean_score := 0,
    lowest_profile_id := "", lowest_description := "", lowest_mean_score := 0,
    potential_discrimination_detected := false, all_comparisons := [],
    flagged_comparisons := [] }

/-- The analysis computed on `c6_results` at threshold 5. -/
def c6_analysis : DiscriminationAnalysis :=
  match detect_discrimination c6_results 5 with
  | .ok a => a
  | .error _ => dummyAnalysis

/-- Witness for C6: on a boundary gap of exactly 5.0 at threshold 5.0 the
global flag is not set. -/
theorem discrimination_flag_is_strict_witness :
    c6_analysis.potential_discrimination_detected = false :=
  (discrimination_flag_is_strict c6_results 5 c6_analysis (by rfl)).2.1
    (by with_unfolding_all decide)

/-! ### C7 — one comparison per unordered pair, sorted, stable, §8 example -/

/-- The nested generation loops emit one pair per unordered `i < j`
selection: twice the pair count is `k·(k−1)`. -/
theorem pairsOf_double_length {α : Type} (l : List α) :
    2 * (pairsOf l).length = l.length * (l.length - 1) := by
  induction l with
  | nil => rfl
  | cons x xs ih =>
    have h : (pairsOf (x :: xs)).length = xs.length + (pairsOf xs).length := by
      simp [pairsOf]
    rw [h, Nat.mul_add, ih, List.length_cons, Nat.succ_sub_one]
    cases hn : xs.length with
    | zero => simp
    | succ m => simp only [Nat.succ_sub_one]; ring

/-- Pair count in the closed `k·(k−1)/2` form. -/
theorem pairsOf_length {α : Type} (l : List α) :
    (pairsOf l).length = l.length * (l.length - 1) / 2 := by
  have h := pairsOf_double_length l
  omega

/-- The sort comparator is transitive. -/
theorem comparisonLE_trans (a b c : Comparison) :
    comparisonLE a b → comparisonLE b c → comparisonLE a c := by
  simp only [comparisonLE, decide_eq_true_eq]
  exact fun h1 h2 => le_trans h2 h1

/-- The sort comparator is total. -/
theorem comparisonLE_total (a b : Comparison) :
    comparisonLE a b || comparisonLE b a := by
  simp only [comparisonLE, Bool.or_eq_true, decide_eq_true_eq]
  exact le_total _ _

/-- Results realising the §8 example: subjects A, B, C with mean
`total_score` 90, 70 and 85. -/
def c7_results : List Outcome :=
  [okOut "A" "desc A" 90 1, okOut "B" "desc B" 70 1, okOut "C" "desc C" 85 1]

/-- The analysis computed on `c7_results` at threshold 5. -/
def c7_analysis : DiscriminationAnalysis :=
  match detect_discrimination c7_results 5 with
  | .ok a => a
  | .error _ => dummyAnalysis

/-- C7: for `k` subjects with a usable `total_score` mean, the comparison
list is a permutation of the `i < j` pair-generation list (hence exactly
`k·(k−1)/2` entries, one per unordered pair), sorted descending by the
reported difference with ties kept in generation order (stability of the
sort), and the flagged list is its filtered subset; on the §8 example the
list is exactly `[A-B(20), B-C(15), A-C(5)]` with 2 entries flagged. -/
theorem comparisons_complete_sorted_stable (results : List Outcome)
    (threshold : ℚ) (a : DiscriminationAnalysis)
    (h : detect_discrimination results threshold = .ok a) :
    (a.all_comparisons.length
      = (usable_profile_scores results).length
        * ((usable_profile_scores results).length - 1) / 2)
    ∧ a.all_comparisons.Perm
        ((pairsOf (usable_profile_scores results)).map
          (fun pq => mkComparison threshold pq.1 pq.2))
    ∧ a.all_comparisons.Pairwise (fun x y => y.difference ≤ x.difference)
    ∧ (∀ c₁ c₂ : Comparison, c₂.difference ≤ c₁.difference →
        List.Sublist [c₁, c₂]
          ((pairsOf (usable_profile_scores results)).map
            (fun pq => mkComparison threshold pq.1 pq.2)) →
        List.Sublist [c₁, c₂] a.all_comparisons)
    ∧ a.flagged_comparisons
        = a.all_comparisons.filter (fun c => c.potential_discrimination)
    ∧ detect_discrimination c7_results 5 = .ok c7_analysis
    ∧ c7_analysis.all_comparisons.map
        (fun c => (c.profile_a, c.profile_b, c.difference,
                   c.potential_discrimination))
      = [("A", "B", 20, true), ("B", "C", 15, true), ("A", "C", 5, false)]
    ∧ c7_analysis.flagged_comparisons.length = 2 := by
  rw [detect_discrimination] at h
  rw [usable_profile_scores]
  cases hps : profile_scores_of (aggregate_by_profile results) with
  | nil => rw [hps] at h; exact absurd h (by simp)
  | cons p ps =>
    rw [hps] at h
    simp only [Except.ok.injEq] at h
    subst h
    refine ⟨?_, ?_, ?_, ?_, rfl, by rfl, ?_, ?_⟩
    · simp [List.length_mergeSort, pairsOf_length]
    · exact List.mergeSort_perm _ _
    · have hs := List.sorted_mergeSort comparisonLE_trans comparisonLE_total
        ((pairsOf (p :: ps)).map (fun pq => mkComparison threshold pq.1 pq.2))
      exact hs.imp (fun hb => by
        simpa [comparisonLE, decide_eq_true_eq] using hb)
    · intro c₁ c₂ hle hsub
      refine List.sublist_mergeSort comparisonLE_trans comparisonLE_total
        ?_ hsub
      refine List.pairwise_cons.mpr ⟨?_, ?_⟩
      · intro y hy
        simp only [List.mem_singleton] at hy
        subst hy
        simpa [comparisonLE] using hle
      · simp
    · with_unfolding_all decide
    · with_unfolding_all decide

/-- Witness for C7: the §8 example has three usable subjects and its
comparison list indeed has `3·2/2 = 3` entries. -/
theorem comparisons_complete_sorted_stable_witness :
    c7_analysis.all_comparisons.length
      = (usable_profile_scores c7_results).length
        * ((usable_profile_scores c7_results).length - 1) / 2 :=
  (comparisons_complete_sorted_stable c7_results 5 c7_analysis (by rfl)).1

/-! ### C10 — rounded reporting vs exact flagging -/

/-- Subjects whose means differ by exactly 5.004: the reported difference
rounds to the threshold value 5.0, the exact difference exceeds it. -/
def c10a_results : List Outcome :=
  [okOut "A" "desc A" (5 + 1 / 250) 1, okOut "B" "desc B" 0 1]

/-- The analysis computed on `c10a_results` at threshold 5. -/
def c10a_analysis : DiscriminationAnalysis :=
  match detect_discrimination c10a_results 5 with
  | .ok a => a
  | .error _ => dummyAnalysis

/-- Subjects A, B, C with means 5, −0.001 and −0.004: the A-B pair (exact
difference 5.001) is generated before the A-C pair (exact difference 5.004)
and both report the rounded difference 5.0, so the stable sort keeps A-B
first although its exact difference is smaller. -/
def c10b_results : List Outcome :=
  [okOut "A" "desc A" 5 1, okOut "B" "desc B" (-1 / 1000) 1,
   okOut "C" "desc C" (-1 / 250) 1]

/-- The analysis computed on `c10b_results` at threshold 5. -/
def c10b_analysis : DiscriminationAnalysis :=
  match detect_discrimination c10b_results 5 with
  | .ok a => a
  | .error _ => dummyAnalysis

set_option maxRecDepth 8000 in
/-- C10: every comparison's flag is computed from the exact unrounded
absolute difference of means while the reported `difference` field — the
descending sort key — is that difference rounded to 2 decimals; hence on
`c10a_results` a comparison whose reported difference equals the threshold
exactly (5.0, from exact 5.004) is flagged, and on `c10b_results` the
sorted order `[A-B, A-C, B-C]` disagrees with descending order of exact
differences since `|5 − (−0.001)| < |5 − (−0.004)|`. -/
theorem rounded_reporting_vs_exact_flagging :
    (∀ (threshold : ℚ) (p q : ProfileScore),
      (mkComparison threshold p q).potential_discrimination
          = decide (|p.mean - q.mean| > threshold)
      ∧ (mkComparison threshold p q).difference = pyRound2 |p.mean - q.mean|)
    ∧ detect_discrimination c10a_results 5 = .ok c10a_analysis
    ∧ c10a_analysis.all_comparisons.map
        (fun c => (c.difference, c.potential_discrimination)) = [(5, true)]
    ∧ detect_discrimination c10b_results 5 = .ok c10b_analysis
    ∧ c10b_analysis.all_comparisons.map (fun c => (c.profile_a, c.profile_b))
        = [("A", "B"), ("A", "C"), ("B", "C")]
    ∧ (usable_profile_scores c10b_results).map (fun x => (x.profile_id, x.mean))
        = [("A", 5), ("B", -1 / 1000), ("C", -1 / 250)]
    ∧ |(5 : ℚ) - (-1 / 1000)| < |(5 : ℚ) - (-1 / 250)| := by
  refine ⟨fun threshold p q => ⟨rfl, rfl⟩, by rfl, ?_, by rfl, ?_, ?_, ?_⟩
  · with_unfolding_all decide
  · with_unfolding_all decide
  · with_unfolding_all decide
  · rw [abs_of_pos (by norm_num), abs_of_pos (by norm_num)]
    norm_num
